import Mathlib

/-!
Verification of the nl2sql pipeline (src/main.py) against its specification.

The Python program is shallowly embedded: the SQLite store is a list of
tables; the sqlite3 library calls that the program performs (PRAGMA
table_info, SELECT * ... LIMIT, arbitrary statement execution) are modelled
by executable Lean functions, with arbitrary-SQL execution abstracted as an
oracle `String → Except String ExecOut` mirroring the sqlite3 cursor
interface (an `Except.error` is a raised `sqlite3.Error`, and
`description = none` is `cursor.description is None`, which sqlite3 reports
for statements that produce no result columns).  Completion-service calls
are modelled by oracles that supply the raw response text, since the spec
claims only concern what the program does with responses, and what requests
it builds.  Python exceptions are modelled with `Except`.
-/

namespace NL2SQL

/-! ### Scalar values and rows (tagged scalar variants of store cells) -/

inductive Val where
  | vnull
  | vint (n : Int)
  | vtext (s : String)
  deriving DecidableEq, Repr

abbrev Row := List Val

/-- One table of the SQLite store: name, ordered (column name, declared
type) pairs, and rows. -/
structure Table where
  name : String
  cols : List (String × String)
  rows : List Row
  deriving DecidableEq, Repr

abbrev DB := List Table

/-- Look a table up by name, as SQLite resolves a table identifier. -/
def dbFind (db : DB) (t : String) : Option Table :=
  db.find? (fun tb => tb.name == t)

/-! ### Character-level helpers for Python string semantics.

The single-quote and backtick characters are built from their code points
(39 and 96). -/

def sqChar : Char := Char.ofNat 39

def bqChar : Char := Char.ofNat 96

def squote : String := String.mk [sqChar]

def isBq (c : Char) : Bool := c == bqChar

/-- Python `str.isspace` over the characters `str.strip()` removes:
space, tab, newline, carriage return, vertical tab, form feed. -/
def isPySpaceChar (c : Char) : Bool :=
  c == ' ' || c == '\t' || c == '\n' || c == '\r' ||
    c == Char.ofNat 11 || c == Char.ofNat 12

/-- Drop characters satisfying `p` from both ends of a character list:
the semantics of Python `str.strip(chars)`. -/
def dropBothEnds (p : Char → Bool) (l : List Char) : List Char :=
  ((l.dropWhile p).reverse.dropWhile p).reverse

/-- Python `s.strip(chars)` where `p` decides membership in `chars`
(or whitespace for a bare `s.strip()`). -/
def pystrip (p : Char → Bool) (s : String) : String :=
  String.mk (dropBothEnds p s.data)

/-- Python single-character `str.replace(a, b)`: substitute every
occurrence of character `a` by `b`. -/
def pyReplaceChar (l : List Char) (a b : Char) : List Char :=
  l.map (fun c => if c == a then b else c)

/-- Executable check that `pat` is a prefix of `s`. -/
def chStarts : List Char → List Char → Bool
  | [], _ => true
  | _ :: _, [] => false
  | p :: ps, c :: cs => p == c && chStarts ps cs

/-- Executable check that `pat` occurs contiguously somewhere in `s`. -/
def chContains (pat : List Char) : List Char → Bool
  | [] => chStarts pat []
  | c :: cs => chStarts pat (c :: cs) || chContains pat cs

/-- Python `s.endswith(suf)` (executable, on `String`). -/
def pyEndsWith (s suf : String) : Bool :=
  chStarts suf.data.reverse s.data.reverse

/-- Both boundary characters of `l` (when present) fail `p`. -/
def boundaryNot (p : Char → Bool) (l : List Char) : Bool :=
  (l.head?.all (fun c => !(p c))) && (l.getLast?.all (fun c => !(p c)))

/-! ### `stdize_table_name` (src/main.py lines 19-22) -/

/-- Model of `os.path.splitext(filename)[0]` for a separator-free filename:
split at the last dot, except that a dot is no extension separator when
every character before it is itself a dot (CPython `genericpath._splitext`). -/
def splitextRoot (f : List Char) : List Char :=
  match f.reverse.findIdx? (fun c => c == '.') with
  | none => f
  | some k =>
    let i := f.length - 1 - k
    if (f.take i).any (fun c => c != '.') then f.take i else f

/-- Embedding of `stdize_table_name`: strip the extension, then
`.replace(" ", "_").replace("-", "_")`. -/
def stdize_table_name (filename : String) : String :=
  String.mk (pyReplaceChar (pyReplaceChar (splitextRoot filename.data) ' ' '_') '-' '_')

/-! ### `make_db` (src/main.py lines 24-37)

A directory listing is a list of (filename, read result); `none` models a
`pd.read_excel`/`to_sql` failure for that file (the `except` branch skips
it).  `df.to_sql(..., if_exists="replace")` drops any existing table of the
same name and writes the new one. -/

abbrev Frame := List (String × String) × List Row

/-- Write a table with replace semantics: an existing table of the same
name is dropped. -/
def dbSetTable (db : DB) (t : Table) : DB :=
  db.filter (fun tb => tb.name != t.name) ++ [t]

def make_db (files : List (String × Option Frame)) : DB :=
  files.foldl
    (fun db fd =>
      if pyEndsWith fd.1 ".xlsx" then
        match fd.2 with
        | some fr => dbSetTable db { name := stdize_table_name fd.1, cols := fr.1, rows := fr.2 }
        | none => db
      else db)
    []

/-! ### Schema introspection (src/main.py lines 54-62)

`get_table_sample` runs `SELECT * FROM '<t>' LIMIT <n>`: on a missing
table sqlite3 raises `OperationalError: no such table: <t>`, modelled as
`Except.error`; on success, `cursor.description` carries the column names
and `fetchall` the first `limit` rows. -/

def get_table_sample (db : DB) (table_name : String) (limit : Nat) :
    Except String (List String × List Row) :=
  match dbFind db table_name with
  | none => Except.error ("no such table: " ++ table_name)
  | some tb => Except.ok (tb.cols.map (fun c => c.1), tb.rows.take limit)

/-- Model of PRAGMA table_info on a table name: the (name, type) rows, and
the empty list (not an error) when the table does not exist. -/
def pragmaTableInfo (db : DB) (t : String) : List (String × String) :=
  match dbFind db t with
  | some tb => tb.cols
  | none => []

/-! ### `identify_relevant_schema` (src/main.py lines 64-100) -/

/-- The structured selection the selector is asked for:
`tables`, `columns`, `reasoning`. -/
structure SchemaInfo where
  tables : List String
  columns : List (String × List String)
  reasoning : String
  deriving DecidableEq, Repr

/-- Python expression `schema_info.get("columns", {}).get(table, [])`. -/
def lookupCols (cols : List (String × List String)) (t : String) : List String :=
  match cols.find? (fun p => p.1 == t) with
  | some p => p.2
  | none => []

/-- How `identify_relevant_schema` handles the raw completion response:
`parse` abstracts the structured-data parse of the response text (`none`
when the text is not parseable structured data, in which case Python's
`except` branch returns the fallback selection). -/
def identify_relevant_schema (parse : String → Option SchemaInfo) (raw : String) :
    SchemaInfo :=
  match parse raw with
  | some info => info
  | none => { tables := [], columns := [], reasoning := "Failed to parse response" }

/-! ### `create_focused_schema` (src/main.py lines 136-191) -/

/-- Python `str(value)` for a scalar used in an f-string. -/
def pyStrVal : Val → String
  | Val.vnull => "None"
  | Val.vint n => toString n
  | Val.vtext s => s

/-- Python `repr(value)` for a scalar (text values get quotes). -/
def pyReprVal : Val → String
  | Val.vnull => "None"
  | Val.vint n => toString n
  | Val.vtext s => String.mk (sqChar :: (s.data ++ [sqChar]))

/-- Python `str(row)` for a result tuple. -/
def pyStrRow (r : Row) : String :=
  "(" ++ String.intercalate ", " (r.map pyReprVal) ++
    (if r.length == 1 then ",)" else ")")

/-- Python `list.index`: first index of `c` in `l`.  In
`create_focused_schema` it is only evaluated on members of `l`, so the
`0` default of the `none` branch is unreachable there. -/
def firstIdx (l : List String) (c : String) : Nat :=
  match l.findIdx? (fun x => x == c) with
  | some i => i
  | none => 0

/-- One per-table block of the focused schema (the body of the `for table`
loop): PRAGMA column info, filtered to the selected columns when that list
is non-empty, then up to 3 sample rows from `get_table_sample` — whose
missing-table exception propagates. -/
def tableBlock (db : DB) (info : SchemaInfo) (table : String) : Except String String :=
  let columns := pragmaTableInfo db table
  let relevant_cols := lookupCols info.columns table
  let columns := if relevant_cols.isEmpty then columns
                 else columns.filter (fun col => relevant_cols.contains col.1)
  let column_descriptions := columns.map (fun col => col.1 ++ " (" ++ col.2 ++ ")")
  match get_table_sample db table 3 with
  | Except.error e => Except.error e
  | Except.ok sample =>
    let sample_columns := sample.1
    let sample_data := sample.2
    let header := ["Table: " ++ table,
                   "Columns: " ++ String.intercalate ", " column_descriptions,
                   "Sample data:"]
    let rendered := sample_data.map (fun row =>
      if relevant_cols.isEmpty then pyStrRow row
      else String.intercalate ", "
        ((sample_columns.filter (fun c => relevant_cols.contains c)).map
          (fun c => c ++ "=" ++ pyStrVal (row.getD (firstIdx sample_columns c) Val.vnull))))
    Except.ok (String.intercalate "\n" (header ++ rendered))

/-- The `for table in schema_info.get("tables", [])` loop, collecting the
blocks; the first raised exception aborts the whole loop. -/
def collectBlocks (db : DB) (info : SchemaInfo) : List String → Except String (List String)
  | [] => Except.ok []
  | t :: ts =>
    match tableBlock db info t with
    | Except.error e => Except.error e
    | Except.ok b =>
      match collectBlocks db info ts with
      | Except.error e => Except.error e
      | Except.ok bs => Except.ok (b :: bs)

def create_focused_schema (db : DB) (info : SchemaInfo) : Except String String :=
  let head := "Relevant elements needed because: " ++ info.reasoning ++ "\n"
  match collectBlocks db info info.tables with
  | Except.error e => Except.error e
  | Except.ok blocks => Except.ok (String.intercalate "\n\n" (head :: blocks))

/-- Executable test for `Except.ok`. -/
def exceptIsOk {ε α : Type} : Except ε α → Bool
  | Except.ok _ => true
  | Except.error _ => false

/-! ### `run_query` (src/main.py lines 193-204)

`execSql` abstracts `cursor.execute` + `fetchall` + `description` on the
store.  When the statement yields no result columns, `cursor.description`
is `None` and the list comprehension over it raises a `TypeError`, which
the bare `except` turns into the failure sentinel as well; the message
text below stands for `str()` of that `TypeError`. -/

structure ExecOut where
  description : Option (List String)
  rows : List Row
  deriving DecidableEq, Repr

inductive RunResult where
  | ok (cols : List String) (rows : List Row)
  | err (msg : String)
  deriving DecidableEq, Repr

def noneIterMsg : String := "TypeError: NoneType object is not iterable"

def run_query (execSql : String → Except String ExecOut) (sql : String) : RunResult :=
  match execSql sql with
  | Except.error e => RunResult.err e
  | Except.ok out =>
    match out.description with
    | some cols => RunResult.ok cols out.rows
    | none => RunResult.err noneIterMsg

/-! ### `generate_sql` (src/main.py lines 102-134): the request it builds
and its handling of the response. -/

structure Msg where
  role : String
  content : String
  deriving DecidableEq, Repr

def genSqlSystemPrompt : String :=
  "You are an expert SQL developer. Write a SQLite query that:\n    1. Answers the user" ++
  squote ++
  "s question precisely\n    2. Uses only the tables and columns provided in the focused schema\n    3. Includes appropriate JOINs where needed\n    4. Handles edge cases like NULL values\n    5. Is optimized for performance\n\n    All generated queries must be for the SQLite 3 dialect\n    Return ONLY the SQL query, nothing else."

def genSqlUserA : String := "Question to answer:\n    \""

def genSqlUserB : String := "\"\n\n    Relevant database elements:\n    "

def genSqlUserC : String :=
  "\n\n    Write a SQL query that answers the question using only these tables and columns.\n    Include comments for complex operations if needed."

def genSqlUserPrompt (user_question focused_schema : String) : String :=
  genSqlUserA ++ user_question ++ genSqlUserB ++ focused_schema ++ genSqlUserC

/-- The messages of the single completion request `generate_sql` issues.
`schema_str` is the full-schema argument of the Python function; it does
not occur in either prompt. -/
def generate_sql_messages (schema_str user_question focused_schema : String) : List Msg :=
  [{ role := "system", content := genSqlSystemPrompt },
   { role := "user", content := genSqlUserPrompt user_question focused_schema }]

/-- Concatenated content of a request's messages. -/
def msgsContent (ms : List Msg) : String :=
  String.join (ms.map (fun m => m.content))

/-- Embedding of the `generate_sql` return value: `response...content.strip()`. -/
def generate_sql_result (raw : String) : String := pystrip isPySpaceChar raw

/-- In `main`, the generated query is then stripped of fence characters:
`sql_query.strip("\x60")`. -/
def strip_fence_chars (s : String) : String := pystrip isBq s

/-- Embedding of the `get_ans` return value, `response...content.strip()`; its prompt
construction is not modelled, as no claim depends on it. -/
def get_ans_result (raw : String) : String := pystrip isPySpaceChar raw

/-! ### Per-question body of `main` (src/main.py lines 274-310) -/

/-- The external responses/behaviour one question's processing consumes:
raw completion responses, the response parse, and the store's execution of
arbitrary SQL text. -/
structure Oracles where
  selectRaw : String
  parse : String → Option SchemaInfo
  sqlRaw : String
  execSql : String → Except String ExecOut
  explainRaw : String

inductive QOut where
  | sessionError (msg : String)
  | execError (msg : String)
  | answered (ans : String) (cols : List String) (rows : List Row)
  deriving DecidableEq, Repr

/-- What one trip through the question loop did: its user-visible outcome,
whether `get_ans` was invoked, and (when `run_query` was reached) the SQL
string handed to it together with its result. -/
structure QTrace where
  out : QOut
  explainerInvoked : Bool
  executed : Option (String × RunResult)
  deriving DecidableEq, Repr

/-- The `try` body of `main`'s question loop.  An exception raised by
`create_focused_schema` (a hallucinated table) is caught by the `except`
and printed; otherwise the stripped SQL is executed, and `get_ans` runs
only in the `else` branch of `isinstance(result, str)`. -/
def processQuestion (db : DB) (o : Oracles) : QTrace :=
  match create_focused_schema db (identify_relevant_schema o.parse o.selectRaw) with
  | Except.error e =>
    { out := QOut.sessionError e, explainerInvoked := false, executed := none }
  | Except.ok _focused =>
    match run_query o.execSql (strip_fence_chars (generate_sql_result o.sqlRaw)) with
    | RunResult.err e =>
      { out := QOut.execError e, explainerInvoked := false,
        executed := some (strip_fence_chars (generate_sql_result o.sqlRaw), RunResult.err e) }
    | RunResult.ok cols rows =>
      { out := QOut.answered (get_ans_result o.explainRaw) cols rows,
        explainerInvoked := true,
        executed := some (strip_fence_chars (generate_sql_result o.sqlRaw), RunResult.ok cols rows) }

/-! ### Specification-side definitions (for refinement-style claims) -/

/-- Spec side, claim C8: "extension stripped and every space and every
hyphen replaced by an underscore" as one simultaneous character map. -/
def sanitizeChar (c : Char) : Char :=
  if c == ' ' || c == '-' then '_' else c

def spec_sanitized_name (filename : String) : String :=
  String.mk ((splitextRoot filename.data).map sanitizeChar)

/-! ### Concrete inputs used by witnesses and counterexamples -/

def dbY : DB := [{ name := "Y", cols := [("c", "TEXT")], rows := [[Val.vtext "v"]] }]

def infoXY : SchemaInfo := { tables := ["X", "Y"], columns := [], reasoning := "r" }

def parseFailW : String → Option SchemaInfo := fun _ => none

def execErrW : String → Except String ExecOut := fun _ => Except.error "no such table: t"

def execOkW : String → Except String ExecOut :=
  fun _ => Except.ok { description := some ["n"], rows := [] }

def execDdlW : String → Except String ExecOut :=
  fun _ => Except.ok { description := none, rows := [] }

def oraclesExecFail : Oracles :=
  { selectRaw := "x", parse := parseFailW, sqlRaw := "SELECT 1",
    execSql := execErrW, explainRaw := "a" }

def frameA : Frame := ([("c", "TEXT")], [[Val.vint 1]])

def frameB : Frame := ([("c", "TEXT")], [[Val.vint 2]])

/-- A raw SQL-generation response wrapped in whitespace and code-fence
backticks: `" \x60\x60SELECT 1\x60\n"`. -/
def fencedRaw : String :=
  String.mk ([' ', bqChar, bqChar] ++ "SELECT 1".data ++ [bqChar, '\n'])

def oraclesFenced : Oracles :=
  { selectRaw := "x", parse := parseFailW, sqlRaw := fencedRaw,
    execSql := execOkW, explainRaw := "a" }


theorem chStarts_self_append (p ys : List Char) : chStarts p (p ++ ys) = true := by
  induction p with
  | nil => rfl
  | cons a as ih => simp [chStarts, ih]

theorem chContains_nil (ys : List Char) : chContains [] ys = true := by
  induction ys with
  | nil => rfl
  | cons c cs ih => simp [chContains, chStarts]

theorem chContains_append (pat xs ys : List Char) :
    chContains pat (xs ++ (pat ++ ys)) = true := by
  induction xs with
  | nil =>
    rw [List.nil_append]
    cases pat with
    | nil => simpa using chContains_nil ys
    | cons a as =>
      have h1 := chStarts_self_append (a :: as) ys
      calc chContains (a :: as) ((a :: as) ++ ys)
          = (chStarts (a :: as) ((a :: as) ++ ys) || chContains (a :: as) (as ++ ys)) := rfl
        _ = true := by rw [h1]; simp
  | cons x xs ih =>
    calc chContains pat ((x :: xs) ++ (pat ++ ys))
        = (chStarts pat ((x :: xs) ++ (pat ++ ys)) || chContains pat (xs ++ (pat ++ ys))) := rfl
      _ = true := by rw [ih]; simp

theorem chContains_of_eq_append (pat a b l : List Char) (h : l = a ++ (pat ++ b)) :
    chContains pat l = true := by
  rw [h]; exact chContains_append pat a b

theorem strData_append (a b : String) : (a ++ b).data = a.data ++ b.data := rfl

theorem split_dropBothEnds (p : Char → Bool) (l : List Char) :
    l = l.takeWhile p ++ (dropBothEnds p l ++ ((l.dropWhile p).reverse.takeWhile p).reverse) := by
  have h2 := List.takeWhile_append_dropWhile p (l.dropWhile p).reverse
  calc l = l.takeWhile p ++ l.dropWhile p := (List.takeWhile_append_dropWhile p l).symm
    _ = l.takeWhile p ++ ((l.dropWhile p).reverse).reverse := by rw [List.reverse_reverse]
    _ = l.takeWhile p ++ ((l.dropWhile p).reverse.takeWhile p ++ (l.dropWhile p).reverse.dropWhile p).reverse := by
        rw [h2]
    _ = l.takeWhile p ++ (dropBothEnds p l ++ ((l.dropWhile p).reverse.takeWhile p).reverse) := by
        rw [List.reverse_append]; rfl

theorem chContains_dropBothEnds_twice (p q : Char → Bool) (l : List Char) :
    chContains (dropBothEnds q (dropBothEnds p l)) l = true := by
  have h2 := split_dropBothEnds p l
  have h3 := split_dropBothEnds q (dropBothEnds p l)
  rw [h3] at h2
  refine chContains_of_eq_append _
    (l.takeWhile p ++ (dropBothEnds p l).takeWhile q)
    ((((dropBothEnds p l).dropWhile q).reverse.takeWhile q).reverse ++
      ((l.dropWhile p).reverse.takeWhile p).reverse) l ?_
  simpa [List.append_assoc] using h2

theorem dropWhile_getLast_eq (p : Char → Bool) (l : List Char) :
    l.dropWhile p = [] ∨ (l.dropWhile p).getLast? = l.getLast? := by
  induction l with
  | nil => exact Or.inl rfl
  | cons a as ih =>
    by_cases h : p a
    · rw [List.dropWhile_cons_of_pos h]
      rcases ih with h1 | h1
      · exact Or.inl h1
      · cases as with
        | nil => exact Or.inl rfl
        | cons b bs => exact Or.inr (h1.trans List.getLast?_cons_cons.symm)
    · rw [List.dropWhile_cons_of_neg h]
      exact Or.inr rfl

theorem head_dropWhile_false (p : Char → Bool) (l : List Char) (c : Char)
    (h : (l.dropWhile p).head? = some c) : p c = false := by
  have h2 := List.head?_dropWhile_not p l
  rw [h] at h2
  exact h2

theorem boundaryNot_dropBothEnds (p : Char → Bool) (l : List Char) :
    boundaryNot p (dropBothEnds p l) = true := by
  unfold boundaryNot dropBothEnds
  rw [Bool.and_eq_true]
  constructor
  · rw [List.head?_reverse]
    rcases dropWhile_getLast_eq p (l.dropWhile p).reverse with h | h
    · rw [h]; rfl
    · rw [h, List.getLast?_reverse]
      cases hh : (l.dropWhile p).head? with
      | none => rfl
      | some c => simp [head_dropWhile_false p l c hh]
  · rw [List.getLast?_reverse]
    cases hh : ((l.dropWhile p).reverse.dropWhile p).head? with
    | none => rfl
    | some c => simp [head_dropWhile_false p (l.dropWhile p).reverse c hh]


/-- Claim C1 (counterexample): on an unparseable completion response the
Relevance Selector's fallback rationale is not the string "parse failed"
claimed by the spec. -/
theorem C1_rationale_counterexample :
    (identify_relevant_schema parseFailW "x").reasoning ≠ "parse failed" := by
  decide

/-- Claim C1 (amended): for every raw completion response that is not
parseable structured data, `identify_relevant_schema` returns normally with
the empty-selection sentinel: empty table set, empty column mapping, and
rationale string "Failed to parse response". -/
theorem C1_parse_failure_sentinel (parse : String → Option SchemaInfo) (raw : String)
    (h : parse raw = none) :
    identify_relevant_schema parse raw =
      { tables := [], columns := [], reasoning := "Failed to parse response" } := by
  unfold identify_relevant_schema
  rw [h]

/-- Claim C1 witness: the sentinel at a concrete unparseable response. -/
theorem C1_parse_failure_sentinel_witness :
    identify_relevant_schema parseFailW "not structured data" =
      { tables := [], columns := [], reasoning := "Failed to parse response" } :=
  C1_parse_failure_sentinel parseFailW "not structured data" rfl

/-- Claim C2 (counterexample): with store containing only table Y and a
selection naming X and Y, `create_focused_schema` does not return normally:
the sample fetch for the nonexistent X raises, and the error propagates. -/
theorem C2_missing_table_counterexample :
    create_focused_schema dbY infoXY = Except.error "no such table: X" := rfl

theorem tableBlock_missing (db : DB) (info : SchemaInfo) (t : String)
    (h : dbFind db t = none) :
    tableBlock db info t = Except.error ("no such table: " ++ t) := by
  simp [tableBlock, get_table_sample, h]

theorem collectBlocks_missing (db : DB) (info : SchemaInfo) (t : String) :
    ∀ ts : List String, t ∈ ts → dbFind db t = none →
      exceptIsOk (collectBlocks db info ts) = false := by
  intro ts
  induction ts with
  | nil => intro hmem; exact absurd hmem (List.not_mem_nil t)
  | cons a as ih =>
    intro hmem hfind
    rcases List.mem_cons.mp hmem with rfl | hmem2
    · simp [collectBlocks, tableBlock_missing db info t hfind, exceptIsOk]
    · cases hb : tableBlock db info a with
      | error e => simp [collectBlocks, hb, exceptIsOk]
      | ok b =>
        have h2 := ih hmem2 hfind
        cases hc : collectBlocks db info as with
        | error e => simp [collectBlocks, hb, hc, exceptIsOk]
        | ok bs => rw [hc] at h2; exact absurd h2 (by simp [exceptIsOk])

/-- Claim C2 (amended): for every selection naming a table absent from the
store, `create_focused_schema` does not return normally: the per-table
sample fetch raises "no such table", and the exception propagates to the
caller (where `main`'s per-question handler catches it); the nonexistent
table is not silently omitted. -/
theorem C2_missing_table_raises (db : DB) (info : SchemaInfo) (t : String)
    (h1 : t ∈ info.tables) (h2 : dbFind db t = none) :
    exceptIsOk (create_focused_schema db info) = false := by
  have h3 := collectBlocks_missing db info t info.tables h1 h2
  unfold create_focused_schema
  cases hc : collectBlocks db info info.tables with
  | error e => simp [exceptIsOk]
  | ok bs => rw [hc] at h3; exact absurd h3 (by simp [exceptIsOk])

/-- Claim C2 witness: the failure at a concrete store and selection. -/
theorem C2_missing_table_raises_witness :
    exceptIsOk (create_focused_schema dbY infoXY) = false :=
  C2_missing_table_raises dbY infoXY "X" (by decide) (by decide)

/-- Claim C3: `run_query` is total (never raises); when execution raises,
it returns the failure sentinel carrying the error's descriptive text; when
execution succeeds with a column description, it returns the column list
and the (possibly empty) row list; and the success and failure channels
are disjoint, so zero rows is never conflated with failure. -/
theorem C3_run_query_channels (execSql : String → Except String ExecOut) (sql : String) :
    (∀ e, execSql sql = Except.error e → run_query execSql sql = RunResult.err e) ∧
    (∀ cols rows, execSql sql = Except.ok { description := some cols, rows := rows } →
      run_query execSql sql = RunResult.ok cols rows) ∧
    (∀ cols rows msg, RunResult.ok cols rows ≠ RunResult.err msg) := by
  refine ⟨?_, ?_, ?_⟩
  · intro e he
    unfold run_query
    rw [he]
  · intro cols rows he
    unfold run_query
    rw [he]
  · intro cols rows msg hne
    exact RunResult.noConfusion hne

/-- Claim C3 witness: both channels at concrete executions. -/
theorem C3_run_query_channels_witness :
    run_query execErrW "SELECT 1" = RunResult.err "no such table: t" ∧
    run_query execOkW "SELECT 1" = RunResult.ok ["n"] [] :=
  ⟨(C3_run_query_channels execErrW "SELECT 1").1 "no such table: t" rfl,
   (C3_run_query_channels execOkW "SELECT 1").2.1 ["n"] [] rfl⟩

set_option maxRecDepth 10000 in
/-- Claim C4 (counterexample): the full-schema string "ZZZ" does not occur
in the content of the completion request `generate_sql` builds from it, so
the request does not incorporate the full schema description. -/
theorem C4_full_schema_counterexample :
    chContains "ZZZ".data (msgsContent (generate_sql_messages "ZZZ" "" "")).data = false := by
  decide

/-- Claim C4 (amended): `generate_sql` issues a single completion request
whose content incorporates the question and the focused-schema text, but
the request is independent of the full-schema argument: under an empty
selection the synthesis is performed against only the focused-schema text,
not the full schema. -/
theorem C4_request_ignores_full_schema (s1 s2 q f : String) :
    generate_sql_messages s1 q f = generate_sql_messages s2 q f ∧
    chContains f.data (genSqlUserPrompt q f).data = true ∧
    chContains q.data (genSqlUserPrompt q f).data = true := by
  refine ⟨rfl, ?_, ?_⟩
  · refine chContains_of_eq_append f.data
      (genSqlUserA.data ++ (q.data ++ genSqlUserB.data)) genSqlUserC.data _ ?_
    simp [genSqlUserPrompt, strData_append, List.append_assoc]
  · refine chContains_of_eq_append q.data
      genSqlUserA.data (genSqlUserB.data ++ (f.data ++ genSqlUserC.data)) _ ?_
    simp [genSqlUserPrompt, strData_append, List.append_assoc]

/-- Claim C5: whenever the Query Executor reported the failure sentinel for
a question, the Result Explainer is not invoked, and the controller reports
the execution error text directly. -/
theorem C5_explainer_not_invoked_on_failure (db : DB) (o : Oracles) (sql e : String)
    (h : (processQuestion db o).executed = some (sql, RunResult.err e)) :
    (processQuestion db o).explainerInvoked = false ∧
    (processQuestion db o).out = QOut.execError e := by
  unfold processQuestion at h ⊢
  cases hc : create_focused_schema db (identify_relevant_schema o.parse o.selectRaw) with
  | error e2 =>
    rw [hc] at h
    simp at h
  | ok foc =>
    rw [hc] at h
    cases hr : run_query o.execSql (strip_fence_chars (generate_sql_result o.sqlRaw)) with
    | err e2 =>
      rw [hr] at h
      simp at h ⊢
      exact h.2
    | ok cols rows =>
      rw [hr] at h
      simp at h

/-- Claim C5 witness: a concrete failing execution, the explainer skipped. -/
theorem C5_explainer_not_invoked_on_failure_witness :
    (processQuestion [] oraclesExecFail).explainerInvoked = false ∧
    (processQuestion [] oraclesExecFail).out = QOut.execError "no such table: t" :=
  C5_explainer_not_invoked_on_failure [] oraclesExecFail "SELECT 1" "no such table: t" rfl

/-- Claim C6 (counterexample): sampling a table absent from the store does
not return an empty result set; it raises sqlite's missing-table error. -/
theorem C6_sample_missing_counterexample :
    get_table_sample [] "X" 3 = Except.error "no such table: X" := rfl

/-- Claim C6 (amended): for every table name absent from the store,
`get_table_sample` raises the store's "no such table" error (modelled as
`Except.error`), rather than returning an empty result set. -/
theorem C6_sample_missing_raises (db : DB) (t : String) (lim : Nat)
    (h : dbFind db t = none) :
    get_table_sample db t lim = Except.error ("no such table: " ++ t) := by
  unfold get_table_sample
  rw [h]

/-- Claim C6 witness: the error at a concrete store and table name. -/
theorem C6_sample_missing_raises_witness :
    get_table_sample dbY "Z" 5 = Except.error ("no such table: " ++ "Z") :=
  C6_sample_missing_raises dbY "Z" 5 rfl

/-- Claim C7: the statement handed to the Query Executor is the raw
SQL-generation response with surrounding whitespace trimmed and then the
wrapping fence (backtick) characters stripped from both ends: it equals the
two-stage strip, carries no backtick at either boundary, and occurs
contiguously in the raw response. -/
theorem C7_sql_trimmed_and_fence_stripped (db : DB) (o : Oracles) (sql : String)
    (r : RunResult) (h : (processQuestion db o).executed = some (sql, r)) :
    sql.data = dropBothEnds isBq (dropBothEnds isPySpaceChar o.sqlRaw.data) ∧
    boundaryNot isBq sql.data = true ∧
    chContains sql.data o.sqlRaw.data = true := by
  have hsql : sql = strip_fence_chars (generate_sql_result o.sqlRaw) := by
    unfold processQuestion at h
    cases hc : create_focused_schema db (identify_relevant_schema o.parse o.selectRaw) with
    | error e2 => rw [hc] at h; simp at h
    | ok foc =>
      rw [hc] at h
      cases hr : run_query o.execSql (strip_fence_chars (generate_sql_result o.sqlRaw)) with
      | err e2 => rw [hr] at h; simp at h; exact h.1.symm
      | ok cols rows => rw [hr] at h; simp at h; exact h.1.symm
  subst hsql
  refine ⟨rfl, ?_, ?_⟩
  · exact boundaryNot_dropBothEnds isBq (dropBothEnds isPySpaceChar o.sqlRaw.data)
  · exact chContains_dropBothEnds_twice isPySpaceChar isBq o.sqlRaw.data

/-- Claim C7 witness: a concrete fenced response, with the fences and
whitespace stripped before execution. -/
theorem C7_sql_trimmed_and_fence_stripped_witness :
    ("SELECT 1" : String).data =
      dropBothEnds isBq (dropBothEnds isPySpaceChar oraclesFenced.sqlRaw.data) ∧
    boundaryNot isBq ("SELECT 1" : String).data = true ∧
    chContains ("SELECT 1" : String).data oraclesFenced.sqlRaw.data = true :=
  C7_sql_trimmed_and_fence_stripped [] oraclesFenced "SELECT 1" (RunResult.ok ["n"] []) rfl

/-- Claim C8: `stdize_table_name` returns the filename with its extension
stripped and every space and every hyphen replaced by an underscore (one
simultaneous character substitution), and it is deterministic: equal
filenames yield equal table names. -/
theorem C8_sanitization_spec (f g : String) (h : f = g) :
    stdize_table_name f = spec_sanitized_name f ∧
    stdize_table_name f = stdize_table_name g := by
  constructor
  · unfold stdize_table_name spec_sanitized_name pyReplaceChar
    rw [List.map_map]
    have hfun : ((fun c => if c == '-' then '_' else c) ∘ fun c => if c == ' ' then '_' else c)
        = sanitizeChar := by
      funext c
      by_cases h1 : c = ' '
      · subst h1; rfl
      · by_cases h2 : c = '-'
        · subst h2; rfl
        · simp [Function.comp, sanitizeChar, h1, h2]
    rw [hfun]
  · rw [h]

/-- Claim C8 witness: the sanitization at a concrete filename. -/
theorem C8_sanitization_spec_witness :
    stdize_table_name "a b.xlsx" = spec_sanitized_name "a b.xlsx" ∧
    stdize_table_name "a b.xlsx" = stdize_table_name "a b.xlsx" :=
  C8_sanitization_spec "a b.xlsx" "a b.xlsx" rfl

/-- Claim C9: the filename-to-table-name mapping is not injective — the two
distinct filenames "grade one.xlsx" and "grade_one.xlsx" sanitize to the
same table name — and since `make_db` writes with replace semantics, the
file loaded later silently replaces the earlier file's table: the store
ends up holding the second file's rows under the shared name. -/
theorem C9_name_collision_replace :
    ("grade one.xlsx" : String) ≠ "grade_one.xlsx" ∧
    stdize_table_name "grade one.xlsx" = stdize_table_name "grade_one.xlsx" ∧
    dbFind (make_db [("grade one.xlsx", some frameA), ("grade_one.xlsx", some frameB)])
        "grade_one"
      = some { name := "grade_one", cols := [("c", "TEXT")], rows := [[Val.vint 2]] } := by
  refine ⟨by decide, by decide, by decide⟩

/-- Claim C10: a statement whose successful execution produces no
result-column description (`cursor.description` is `None`, as for DDL or
INSERT) makes `run_query` return the failure sentinel, not a success
result: the success channel is populated only when a column description
exists. -/
theorem C10_no_description_failure (execSql : String → Except String ExecOut)
    (sql : String) (rows : List Row)
    (h : execSql sql = Except.ok { description := none, rows := rows }) :
    run_query execSql sql = RunResult.err noneIterMsg := by
  unfold run_query
  rw [h]

/-- Claim C10 witness: a concrete description-less successful execution. -/
theorem C10_no_description_failure_witness :
    run_query execDdlW "CREATE TABLE t (x INTEGER)" = RunResult.err noneIterMsg :=
  C10_no_description_failure execDdlW "CREATE TABLE t (x INTEGER)" [] rfl

end NL2SQL
